import Mathlib

/-!
Verification of `addCSSRules` (src/index.js) against its specification.

The source file contains two revisions of the same utility:
* revision 1: the IIFE-wrapped version (lines 1-93), modelled by `run1`;
* revision 2: the plain function declaration (lines 94-184), modelled by `run2`.

Shallow embedding conventions:
* A document environment is a list of stylesheets; a stylesheet is its
  ordered list of rule texts (`cssRules`).  A stylesheet handle is its index
  into that list.  `document.head.appendChild(document.createElement("style")).sheet`
  appends a fresh empty stylesheet and yields its index.
* `CSSStyleSheet.insertRule(text, index)` follows CSSOM: it raises
  IndexSizeError when `index > cssRules.length`, raises SyntaxError for rule
  text the platform rejects (modelled by a parameter `bad : String → Bool`),
  and otherwise splices the rule in at `index` and returns `index`.
* JS exceptions are modelled by `Except`; mutations performed before a throw
  persist, so every operation returns the post-state environment together
  with an `Except` outcome.
* `undefined`/`null` arguments are the `undef` constructors; an absent
  argument is `undef` as in JS.
-/

instance {ε α : Type} [DecidableEq ε] [DecidableEq α] : DecidableEq (Except ε α) := fun a b =>
  match a, b with
  | .ok a, .ok b => if h : a = b then .isTrue (by rw [h]) else .isFalse (by simp [h])
  | .error a, .error b => if h : a = b then .isTrue (by rw [h]) else .isFalse (by simp [h])
  | .ok _, .error _ => .isFalse (by simp)
  | .error _, .ok _ => .isFalse (by simp)

/-- A stylesheet is its ordered list of inserted rule texts (`cssRules`). -/
abbrev Sheet := List String

/-- The document environment: the stylesheets that exist, in creation order. -/
abbrev Env := List Sheet

/-- Errors the platform primitives can raise. -/
inductive JsErr where
  /-- TypeError, e.g. `Object.entries(undefined)`. -/
  | typeErr : JsErr
  /-- DOMException IndexSizeError from `insertRule` (index > length). -/
  | indexErr (idx : Nat) : JsErr
  /-- DOMException SyntaxError from `insertRule` on rejected rule text. -/
  | parseErr (text : String) : JsErr
deriving DecidableEq, Repr

/-- A resolved insertion target.  `real ref` is a genuine stylesheet handle.
`quasi ref` models a caller-supplied plain object that is *not* a stylesheet
but passes revision 2's duck-typing test: concretely, an object whose
prototype provides `insertRule(text, idx)` delegating to the genuine
stylesheet `ref` (defaulting an `undefined` index to 0), and whose own
enumerable properties are exactly `cssRules: 0` — so `cssRules` is defined
but falsy, and `Object.entries` of it stringifies to `[("cssRules", "0")]`. -/
inductive SheetVal where
  | real (ref : Nat) : SheetVal
  | quasi (ref : Nat) : SheetVal
deriving DecidableEq, Repr

/-- The underlying stylesheet index a target reads and writes. -/
def SheetVal.refOf : SheetVal → Nat
  | .real ref => ref
  | .quasi ref => ref

/-- A style payload as `addRule` receives it: absent (`undefined`/`null`),
raw CSS declaration text, or a property→value object whose `Object.entries`
iteration order is the list order. -/
inductive Styles where
  | undef : Styles
  | str (s : String) : Styles
  | map (es : List (String × String)) : Styles
deriving DecidableEq, Repr

/-- The first argument `selectorOrRules`: absent, a string, or a
selector→payload object iterated in `Object.entries` order. -/
inductive Arg1 where
  | undef : Arg1
  | str (s : String) : Arg1
  | map (es : List (String × Styles)) : Arg1
deriving DecidableEq, Repr

/-- The second argument `stylesOrStyleSheet`: absent, a style payload,
a genuine stylesheet, or the quasi-sheet object described at `SheetVal`. -/
inductive Arg2 where
  | undef : Arg2
  | str (s : String) : Arg2
  | map (es : List (String × String)) : Arg2
  | sheet (ref : Nat) : Arg2
  | quasi (ref : Nat) : Arg2
deriving DecidableEq, Repr

/-- Insert `a` at position `n` of `l` (CSSOM splice; callers check `n ≤ l.length`). -/
def listInsertAt (n : Nat) (a : String) (l : List String) : List String :=
  match n, l with
  | 0, l => a :: l
  | _ + 1, [] => [a]
  | n + 1, b :: l => b :: listInsertAt n a l

/-- `CSSStyleSheet.insertRule(text, idx)` on the genuine stylesheet `ref`:
IndexSizeError when `idx > length`, SyntaxError when the platform rejects
`text`, otherwise splice in at `idx` and return `idx`. -/
def realInsert (bad : String → Bool) (env : Env) (ref : Nat) (text : String)
    (idx : Nat) : Env × Except JsErr Nat :=
  match env[ref]? with
  | none => (env, .error .typeErr)
  | some rules =>
    if idx > rules.length then (env, .error (.indexErr idx))
    else if bad text then (env, .error (.parseErr text))
    else (env.set ref (listInsertAt idx text rules), .ok idx)

/-- `sheet.insertRule(text, sheet.cssRules.length)` as both revisions call it.
On a genuine sheet the index is the current rule count (an append).  On the
quasi-sheet object, `cssRules` is `0`, so `sheet.cssRules.length` is
`undefined` and its delegating `insertRule` defaults the index to 0. -/
def sheetInsert (bad : String → Bool) (t : SheetVal) (text : String)
    (env : Env) : Env × Except JsErr Nat :=
  match t with
  | .real ref => realInsert bad env ref text ((env[ref]?.getD []).length)
  | .quasi ref => realInsert bad env ref text 0

/-- `cssText += prop + ":" + val + ";"` over `Object.entries(styles)`
(src/index.js lines 21-23 and 152-154). -/
def cssText (es : List (String × String)) : String :=
  es.foldl (fun acc pv => acc ++ pv.1 ++ ":" ++ pv.2 ++ ";") ""

/-- The rule text `addRule` hands to `insertRule`: braces wrap the payload
when one is present; an absent payload leaves the string untouched
(lines 18-25 and 151-158; both revisions build the same text). -/
def buildRule (sel : String) (styles : Styles) : String :=
  match styles with
  | .undef => sel
  | .str s => sel ++ "\x7b" ++ s ++ "\x7d"
  | .map es => sel ++ "\x7b" ++ cssText es ++ "\x7d"

/-- What a non-sheet second argument means as `addRule`'s `styles` parameter.
The quasi-sheet object reaches revision 1's `addRule` as a truthy non-string,
so `Object.entries` of it yields its own enumerable entries, `[("cssRules", "0")]`;
a genuine `CSSStyleSheet` has no own enumerable properties.  (Both cases are
unreachable in the revision that normalises them away first.) -/
def toStyles : Arg2 → Styles
  | .undef => .undef
  | .str s => .str s
  | .map es => .map es
  | .sheet _ => .map []
  | .quasi _ => .map [("cssRules", "0")]

/-- Revision 1's `addRule` (lines 16-27): empty selector is a no-op returning
`undefined`; otherwise insert the built text at the end of the target.
Returns the new rule's index. -/
def addRule1 (bad : String → Bool) (sel : String) (styles : Styles)
    (t : SheetVal) (env : Env) : Env × Except JsErr (Option Nat) :=
  if sel = "" then (env, .ok none)
  else
    match sheetInsert bad t (buildRule sel styles) env with
    | (env1, .error e) => (env1, .error e)
    | (env1, .ok i) => (env1, .ok (some i))

/-- Revision 1's `for (const [selector, styles] of Object.entries(...))` loop
(lines 88-89): `lastIndex = addRule(...) ?? lastIndex`; a throw aborts the
loop and propagates. -/
def loop1 (bad : String → Bool) (t : SheetVal) :
    List (String × Styles) → Env → Option Nat → Env × Except JsErr (Option Nat)
  | [], env, last => (env, .ok last)
  | (sel, sty) :: rest, env, last =>
    match addRule1 bad sel sty t env with
    | (env1, .error e) => (env1, .error e)
    | (env1, .ok r) => loop1 bad t rest env1 (match r with | some i => some i | none => last)

/-- Resolve `styleSheet || document.head.appendChild(document.createElement("style")).sheet`
(lines 80-82 and 172-174): an absent target creates and attaches a fresh
empty stylesheet. -/
def resolveSheet (sheetOpt : Option SheetVal) (env : Env) : SheetVal × Env :=
  match sheetOpt with
  | some t => (t, env)
  | none => (.real env.length, env ++ [[]])

/-- Revision 1's duck-typing normalisation (lines 71-77): the second argument
is reinterpreted as the target only when `typeof x?.insertRule === "function"`
AND `x.cssRules` is truthy — which of the modelled values only a genuine
stylesheet satisfies (the quasi-sheet's `cssRules` is `0`).  Returns the
styles argument and the effective `styleSheet` after `styleSheet = styleSheet || x`. -/
def normalize1 (arg2 : Arg2) (arg3 : Option Nat) : Arg2 × Option SheetVal :=
  match arg2 with
  | .sheet r =>
    (.undef, match arg3 with | some r3 => some (.real r3) | none => some (.real r))
  | a => (a, arg3.map .real)

/-- Revision 1 of `addCSSRules` (lines 70-92).  Returns the post-state
environment and either a raised error or the JS return value:
`[sheet, lastIndex]` when a rule was added, `undefined` otherwise.
An absent `selectorOrRules` reaches `Object.entries(undefined)`, a TypeError
— raised only after the target was resolved (and possibly created). -/
def run1 (bad : String → Bool) (arg1 : Arg1) (arg2 : Arg2) (arg3 : Option Nat)
    (env : Env) : Env × Except JsErr (Option (SheetVal × Nat)) :=
  let (arg2n, sheetOpt) := normalize1 arg2 arg3
  let (t, env1) := resolveSheet sheetOpt env
  match arg1 with
  | .undef => (env1, .error .typeErr)
  | .str sel =>
    match addRule1 bad sel (toStyles arg2n) t env1 with
    | (env2, Except.error e) => (env2, Except.error e)
    | (env2, .ok r) => (env2, .ok (r.map (fun i => (t, i))))
  | .map es =>
    match loop1 bad t es env1 none with
    | (env2, Except.error e) => (env2, Except.error e)
    | (env2, .ok r) => (env2, .ok (r.map (fun i => (t, i))))

/-- Revision 2's `addRule` (lines 148-161): same rule text as revision 1,
but it returns the pair `[sheet, index]` rather than the bare index. -/
def addRule2 (bad : String → Bool) (sel : String) (styles : Styles)
    (t : SheetVal) (env : Env) : Env × Except JsErr (Option (SheetVal × Nat)) :=
  if sel = "" then (env, .ok none)
  else
    match sheetInsert bad t (buildRule sel styles) env with
    | (env1, .error e) => (env1, .error e)
    | (env1, .ok i) => (env1, .ok (some (t, i)))

/-- Revision 2's entries loop (lines 180-181): `result = addRule(...) || result`;
`addRule`'s result is an array (truthy) or `undefined`, so `||` keeps the
previous pair exactly when the new call returned `undefined`. -/
def loop2 (bad : String → Bool) (t : SheetVal) :
    List (String × Styles) → Env → Option (SheetVal × Nat) →
    Env × Except JsErr (Option (SheetVal × Nat))
  | [], env, last => (env, .ok last)
  | (sel, sty) :: rest, env, last =>
    match addRule2 bad sel sty t env with
    | (env1, .error e) => (env1, .error e)
    | (env1, .ok r) => loop2 bad t rest env1 (match r with | some p => some p | none => last)

/-- Revision 2's duck-typing normalisation (lines 163-169): the test is
`typeof x?.insertRule === "function" && typeof x?.cssRules !== "undefined"`,
which the quasi-sheet object also passes (its `cssRules` is `0`, defined). -/
def normalize2 (arg2 : Arg2) (arg3 : Option Nat) : Arg2 × Option SheetVal :=
  match arg2 with
  | .sheet r =>
    (.undef, match arg3 with | some r3 => some (.real r3) | none => some (.real r))
  | .quasi r =>
    (.undef, match arg3 with | some r3 => some (.real r3) | none => some (.quasi r))
  | a => (a, arg3.map .real)

/-- Revision 2 of `addCSSRules` (lines 138-184). -/
def run2 (bad : String → Bool) (arg1 : Arg1) (arg2 : Arg2) (arg3 : Option Nat)
    (env : Env) : Env × Except JsErr (Option (SheetVal × Nat)) :=
  let (arg2n, sheetOpt) := normalize2 arg2 arg3
  let (t, env1) := resolveSheet sheetOpt env
  match arg1 with
  | .undef => (env1, .error .typeErr)
  | .str sel => addRule2 bad sel (toStyles arg2n) t env1
  | .map es =>
    match loop2 bad t es env1 none with
    | (env2, Except.error e) => (env2, Except.error e)
    | (env2, .ok r) => (env2, .ok r)

/-- The spec's declaration text: the concatenation of `property + ":" + value + ";"`
for each entry in mapping order (spec §4.1 step 3). -/
def specDeclText : List (String × String) → String
  | [] => ""
  | pv :: es => pv.1 ++ ":" ++ pv.2 ++ ";" ++ specDeclText es

/-! ### Helper lemmas -/

theorem list_set_of_getElem? {α : Type} : ∀ (l : List α) (n : Nat) (a : α),
    l[n]? = some a → l.set n a = l
  | [], _, _, h => by simp at h
  | b :: l, 0, a, h => by
    simp at h
    simp [List.set, h]
  | b :: l, n + 1, a, h => by
    simp at h
    simp [List.set, list_set_of_getElem? l n a h]

theorem listInsertAt_length : ∀ (l : List String) (a : String),
    listInsertAt l.length a l = l ++ [a]
  | [], a => rfl
  | b :: l, a => by simp [listInsertAt, listInsertAt_length l a]

/-- `insertRule` at index `cssRules.length` with accepted text appends. -/
theorem realInsert_append (bad : String → Bool) (env : Env) (ref : Nat)
    (text : String) (old : Sheet) (href : env[ref]? = some old)
    (hgood : bad text = false) :
    realInsert bad env ref text old.length =
      (env.set ref (old ++ [text]), .ok old.length) := by
  unfold realInsert
  rw [href]
  simp [hgood, listInsertAt_length]

theorem sheetInsert_real (bad : String → Bool) (env : Env) (ref : Nat)
    (text : String) (old : Sheet) (href : env[ref]? = some old)
    (hgood : bad text = false) :
    sheetInsert bad (.real ref) text env =
      (env.set ref (old ++ [text]), .ok old.length) := by
  show realInsert bad env ref text ((env[ref]?.getD []).length) = _
  rw [href]
  exact realInsert_append bad env ref text old href hgood

theorem addRule1_ok (bad : String → Bool) (sel : String) (sty : Styles)
    (ref : Nat) (env : Env) (old : Sheet) (hsel : sel ≠ "")
    (href : env[ref]? = some old) (hgood : bad (buildRule sel sty) = false) :
    addRule1 bad sel sty (.real ref) env =
      (env.set ref (old ++ [buildRule sel sty]), .ok (some old.length)) := by
  unfold addRule1
  rw [if_neg hsel, sheetInsert_real bad env ref _ old href hgood]

/-- A successful run of revision 1's entries loop: every rule text is
appended in order, and the tracked index after a non-empty list is that of
the last appended rule. -/
theorem loop1_ok (bad : String → Bool) (ref : Nat) :
    ∀ (es : List (String × Styles)) (env : Env) (old : Sheet) (last : Option Nat),
    env[ref]? = some old →
    (∀ p ∈ es, p.1 ≠ "" ∧ bad (buildRule p.1 p.2) = false) →
    loop1 bad (.real ref) es env last =
      (env.set ref (old ++ es.map (fun p => buildRule p.1 p.2)),
       .ok (if es.isEmpty then last else some (old.length + (es.length - 1))))
  | [], env, old, last, href, _ => by
    simp [loop1, list_set_of_getElem? env ref old href]
  | (sel, sty) :: rest, env, old, last, href, hok => by
    have hlt : ref < env.length := (List.getElem?_eq_some.mp href).1
    have h1 := hok (sel, sty) (by simp)
    rw [loop1, addRule1_ok bad sel sty ref env old h1.1 href h1.2]
    show loop1 bad (.real ref) rest (env.set ref (old ++ [buildRule sel sty]))
      (some old.length) = _
    rw [loop1_ok bad ref rest _ (old ++ [buildRule sel sty]) _
      (by rw [List.getElem?_set_self (by simpa using hlt)])
      (fun p hp => hok p (by simp [hp]))]
    simp only [List.set_set, List.append_assoc, List.singleton_append, List.map_cons]
    cases rest with
    | nil => simp
    | cons q qs => simp [Nat.add_sub_cancel]; omega

/-- Splitting revision 1's entries loop at an arbitrary point. -/
theorem loop1_append (bad : String → Bool) (t : SheetVal) :
    ∀ (l1 l2 : List (String × Styles)) (env : Env) (last : Option Nat),
    loop1 bad t (l1 ++ l2) env last =
      match loop1 bad t l1 env last with
      | (env1, .error e) => (env1, .error e)
      | (env1, .ok r) => loop1 bad t l2 env1 r
  | [], l2, env, last => by simp [loop1]
  | (sel, sty) :: l1, l2, env, last => by
    rw [List.cons_append, loop1, loop1]
    cases addRule1 bad sel sty t env with
    | mk env1 r =>
      cases r with
      | error e => rfl
      | ok r => exact loop1_append bad t l1 l2 env1 _

theorem cssText_eq_spec_aux (es : List (String × String)) :
    ∀ acc : String,
    es.foldl (fun acc pv => acc ++ pv.1 ++ ":" ++ pv.2 ++ ";") acc =
      acc ++ specDeclText es := by
  induction es with
  | nil => intro acc; simp [specDeclText]
  | cons pv es ih =>
    intro acc
    rw [List.foldl_cons, ih, specDeclText]
    simp [String.append_assoc]

/-- The code's `cssText` accumulation equals the spec's entry-wise
concatenation `property + ":" + value + ";"`. -/
theorem cssText_eq_spec (es : List (String × String)) :
    cssText es = specDeclText es := by
  have h := cssText_eq_spec_aux es ""
  simpa [cssText] using h

/-- `insertRule` touches nothing but the target stylesheet: the number of
stylesheets and every other stylesheet's contents are preserved, on success
and on error alike. -/
theorem realInsert_frame (bad : String → Bool) (env : Env) (ref : Nat)
    (text : String) (idx : Nat) :
    (realInsert bad env ref text idx).1.length = env.length ∧
    ∀ j, j ≠ ref → (realInsert bad env ref text idx).1[j]? = env[j]? := by
  unfold realInsert
  cases h : env[ref]? with
  | none => simp
  | some rules =>
    by_cases h1 : idx > rules.length
    · simp [h1]
    · by_cases h2 : bad text
      · simp [h1, h2]
      · refine ⟨by simp [h1, h2], fun j hj => ?_⟩
        simp [h1, h2, List.getElem?_set_ne (Ne.symm hj)]

theorem sheetInsert_frame (bad : String → Bool) (t : SheetVal) (text : String)
    (env : Env) :
    (sheetInsert bad t text env).1.length = env.length ∧
    ∀ j, j ≠ t.refOf → (sheetInsert bad t text env).1[j]? = env[j]? := by
  cases t with
  | real ref => simpa [sheetInsert, SheetVal.refOf] using realInsert_frame bad env ref text _
  | quasi ref => simpa [sheetInsert, SheetVal.refOf] using realInsert_frame bad env ref text 0

theorem addRule1_frame (bad : String → Bool) (sel : String) (sty : Styles)
    (t : SheetVal) (env : Env) :
    (addRule1 bad sel sty t env).1.length = env.length ∧
    ∀ j, j ≠ t.refOf → (addRule1 bad sel sty t env).1[j]? = env[j]? := by
  unfold addRule1
  by_cases hsel : sel = ""
  · simp [hsel]
  · rw [if_neg hsel]
    have hf := sheetInsert_frame bad t (buildRule sel sty) env
    cases h : sheetInsert bad t (buildRule sel sty) env with
    | mk e r =>
      rw [h] at hf
      cases r with
      | error err => exact hf
      | ok i => exact hf

theorem loop1_frame (bad : String → Bool) (t : SheetVal) :
    ∀ (es : List (String × Styles)) (env : Env) (last : Option Nat),
    (loop1 bad t es env last).1.length = env.length ∧
    ∀ j, j ≠ t.refOf → (loop1 bad t es env last).1[j]? = env[j]?
  | [], env, last => by simp [loop1]
  | (sel, sty) :: rest, env, last => by
    rw [loop1]
    have hf := addRule1_frame bad sel sty t env
    cases h : addRule1 bad sel sty t env with
    | mk e r =>
      rw [h] at hf
      cases r with
      | error err => exact hf
      | ok i =>
        cases i with
        | none =>
          have ih := loop1_frame bad t rest e last
          dsimp only
          exact ⟨ih.1.trans hf.1, fun j hj => (ih.2 j hj).trans (hf.2 j hj)⟩
        | some k =>
          have ih := loop1_frame bad t rest e (some k)
          dsimp only
          exact ⟨ih.1.trans hf.1, fun j hj => (ih.2 j hj).trans (hf.2 j hj)⟩

/-- Revision 2's `addRule` is revision 1's with the result index paired with
the target sheet. -/
theorem addRule2_eq (bad : String → Bool) (sel : String) (sty : Styles)
    (t : SheetVal) (env : Env) :
    addRule2 bad sel sty t env =
      match addRule1 bad sel sty t env with
      | (e, .error err) => (e, .error err)
      | (e, .ok r) => (e, .ok (r.map (fun i => (t, i)))) := by
  unfold addRule1 addRule2
  by_cases hsel : sel = ""
  · simp [hsel]
  · rw [if_neg hsel, if_neg hsel]
    cases sheetInsert bad t (buildRule sel sty) env with
    | mk e r => cases r <;> rfl

/-- Revision 2's entries loop tracks the same state and index as revision
1's, pairing the index with the target sheet. -/
theorem loop2_eq (bad : String → Bool) (t : SheetVal) :
    ∀ (es : List (String × Styles)) (env : Env) (last : Option Nat),
    loop2 bad t es env (last.map (fun i => (t, i))) =
      match loop1 bad t es env last with
      | (e, .error err) => (e, .error err)
      | (e, .ok r) => (e, .ok (r.map (fun i => (t, i))))
  | [], env, last => by simp [loop1, loop2]
  | (sel, sty) :: rest, env, last => by
    rw [loop2, loop1, addRule2_eq]
    cases h : addRule1 bad sel sty t env with
    | mk e r =>
      cases r with
      | error err => rfl
      | ok r =>
        cases r with
        | none =>
          dsimp only
          exact loop2_eq bad t rest e last
        | some k =>
          dsimp only
          exact loop2_eq bad t rest e (some k)

/-! ### Claim theorems -/

/-- C1: a selector-map call with N entries (each selector non-empty, every
built rule text accepted by the platform) appends exactly the N built rule
texts to the resolved target stylesheet, in entry order — so the k-th entry's
rule sits at index `old.length + k`, each the collection's length at its
moment of insertion — and the returned pair carries the index of the N-th
(last) inserted rule. -/
theorem C1_selector_map_appends (bad : String → Bool) (es : List (String × Styles))
    (ref : Nat) (env : Env) (old : Sheet)
    (href : env[ref]? = some old) (hne : es ≠ [])
    (hok : ∀ p ∈ es, p.1 ≠ "" ∧ bad (buildRule p.1 p.2) = false) :
    run1 bad (.map es) .undef (some ref) env =
      (env.set ref (old ++ es.map (fun p => buildRule p.1 p.2)),
       .ok (some (.real ref, old.length + (es.length - 1)))) ∧
    ∀ k, ((run1 bad (.map es) .undef (some ref) env).1[ref]?.getD [])[old.length + k]? =
      (es[k]?).map (fun p => buildRule p.1 p.2) := by
  have hlt : ref < env.length := (List.getElem?_eq_some.mp href).1
  have hrun : run1 bad (.map es) .undef (some ref) env =
      (env.set ref (old ++ es.map (fun p => buildRule p.1 p.2)),
       .ok (some (.real ref, old.length + (es.length - 1)))) := by
    show (match loop1 bad (.real ref) es env none with
      | (env2, Except.error e) => (env2, Except.error e)
      | (env2, Except.ok r) => (env2, Except.ok (r.map (fun i => (SheetVal.real ref, i))))) = _
    rw [loop1_ok bad ref es env old none href hok]
    have hemp : es.isEmpty = false := by
      cases es with
      | nil => exact absurd rfl hne
      | cons p ps => rfl
    rw [hemp]
    rfl
  refine ⟨hrun, fun k => ?_⟩
  rw [hrun]
  show ((env.set ref (old ++ es.map (fun p => buildRule p.1 p.2)))[ref]?.getD
    [])[old.length + k]? = _
  rw [List.getElem?_set_self (by simpa using hlt)]
  show (old ++ es.map (fun p => buildRule p.1 p.2))[old.length + k]? = _
  rw [List.getElem?_append_right (Nat.le_add_right _ _)]
  rw [Nat.add_sub_cancel_left, List.getElem?_map]

/-- C1 witness: the spec's §8 batch example, run at a concrete input. -/
theorem C1_witness :
    run1 (fun _ => false)
      (.map [(".a", .str "color:blue;"), (".b", .map [("display", "none")])])
      .undef (some 0) [[]] =
      ([[".a{color:blue;}", ".b{display:none;}"]], .ok (some (.real 0, 1))) := by
  have h := C1_selector_map_appends (fun _ => false)
    [(".a", .str "color:blue;"), (".b", .map [("display", "none")])]
    0 [[]] [] (by decide) (by decide) (by decide)
  exact h.1.trans (by decide)

/-- C2: a single-selector call with a property-map payload inserts exactly
one rule whose text is `selector ++ "\x7b" ++ declaration ++ "\x7d"`, where the
declaration is the concatenation of `property + ":" + value + ";"` over the
map's entries in iteration order, untransformed. -/
theorem C2_declaration_text (bad : String → Bool) (sel : String)
    (es : List (String × String)) (ref : Nat) (env : Env) (old : Sheet)
    (hsel : sel ≠ "") (href : env[ref]? = some old)
    (hgood : bad (sel ++ "\x7b" ++ specDeclText es ++ "\x7d") = false) :
    run1 bad (.str sel) (.map es) (some ref) env =
      (env.set ref (old ++ [sel ++ "\x7b" ++ specDeclText es ++ "\x7d"]),
       .ok (some (.real ref, old.length))) := by
  have hb : buildRule sel (.map es) = sel ++ "\x7b" ++ specDeclText es ++ "\x7d" := by
    simp [buildRule, cssText_eq_spec]
  show (match addRule1 bad sel (Styles.map es) (.real ref) env with
    | (env2, Except.error e) => (env2, Except.error e)
    | (env2, Except.ok r) => (env2, Except.ok (r.map (fun i => (SheetVal.real ref, i))))) = _
  rw [addRule1_ok bad sel (.map es) ref env old hsel href (by rw [hb]; exact hgood)]
  dsimp only
  rw [hb]
  rfl

/-- C2 witness: the spec's §8 single-selector example. -/
theorem C2_witness :
    run1 (fun _ => false) (.str ".box")
      (.map [("color", "red"), ("margin-top", "10px")]) (some 0) [[]] =
      ([[".box{color:red;margin-top:10px;}"]], .ok (some (.real 0, 0))) := by
  have h := C2_declaration_text (fun _ => false) ".box"
    [("color", "red"), ("margin-top", "10px")] 0 [[]] []
    (by decide) (by decide) (by decide)
  exact h.trans (by decide)

/-- C5: for any selector, the text form of a payload — the string equal to
the entry-wise concatenation `prop:value;` of the map form — yields exactly
the same call outcome (same rule text, same state, same result) as the map
form, against the same target. -/
theorem C5_text_equals_map (bad : String → Bool) (sel : String)
    (es : List (String × String)) (arg3 : Option Nat) (env : Env) :
    run1 bad (.str sel) (.str (specDeclText es)) arg3 env =
      run1 bad (.str sel) (.map es) arg3 env := by
  have haddr : ∀ (t : SheetVal) (env1 : Env),
      addRule1 bad sel (.str (specDeclText es)) t env1 =
        addRule1 bad sel (.map es) t env1 := by
    intro t env1
    unfold addRule1
    rw [show buildRule sel (.str (specDeclText es)) = buildRule sel (.map es) by
      simp [buildRule, cssText_eq_spec]]
  cases arg3 with
  | none =>
    show (match addRule1 bad sel (Styles.str (specDeclText es))
        (.real env.length) (env ++ [[]]) with
      | (env2, Except.error e) => (env2, Except.error e)
      | (env2, Except.ok r) => (env2, Except.ok (r.map (fun i => (SheetVal.real env.length, i))))) = _
    rw [haddr]
    rfl
  | some r3 =>
    show (match addRule1 bad sel (Styles.str (specDeclText es))
        (.real r3) env with
      | (env2, Except.error e) => (env2, Except.error e)
      | (env2, Except.ok r) => (env2, Except.ok (r.map (fun i => (SheetVal.real r3, i))))) = _
    rw [haddr]
    rfl

/-- C6: a call with only a non-empty selector string and no style payload
passes the string to `insertRule` unmodified — the appended rule text is the
argument itself, with no braces or declarations added. -/
theorem C6_lone_string_unmodified (bad : String → Bool) (sel : String)
    (ref : Nat) (env : Env) (old : Sheet)
    (hsel : sel ≠ "") (href : env[ref]? = some old) (hgood : bad sel = false) :
    run1 bad (.str sel) .undef (some ref) env =
      (env.set ref (old ++ [sel]), .ok (some (.real ref, old.length))) := by
  show (match addRule1 bad sel Styles.undef (.real ref) env with
    | (env2, Except.error e) => (env2, Except.error e)
    | (env2, Except.ok r) => (env2, Except.ok (r.map (fun i => (SheetVal.real ref, i))))) = _
  rw [addRule1_ok bad sel .undef ref env old hsel href hgood]
  rfl

/-- C6 witness: an at-rule string inserted verbatim. -/
theorem C6_witness :
    run1 (fun _ => false) (.str "@media screen { .a { color: red; } }")
      .undef (some 0) [["p{margin:0;}"]] =
      ([["p{margin:0;}", "@media screen { .a { color: red; } }"]],
       .ok (some (.real 0, 1))) := by
  have h := C6_lone_string_unmodified (fun _ => false)
    "@media screen { .a { color: red; } }" 0 [["p{margin:0;}"]] ["p{margin:0;}"]
    (by decide) (by decide) (by decide)
  exact h.trans (by decide)

/-- The environment component of the result-wrapping match in `run1`. -/
theorem wrap_fst (x : Env × Except JsErr (Option Nat)) (t : SheetVal) :
    (match x with
     | (env2, Except.error e) => (env2, (Except.error e : Except JsErr (Option (SheetVal × Nat))))
     | (env2, Except.ok r) => (env2, Except.ok (r.map (fun i => (t, i))))).1 = x.1 := by
  rcases x with ⟨e, r⟩
  cases r <;> rfl

/-- With an explicit target, revision 1 preserves the stylesheet count and
every stylesheet other than the target, for every argument shape and on
error paths too. -/
theorem run1_frame_explicit (bad : String → Bool) (arg1 : Arg1) (arg2 : Arg2)
    (ref : Nat) (env : Env) :
    (run1 bad arg1 arg2 (some ref) env).1.length = env.length ∧
    ∀ j, j ≠ ref → (run1 bad arg1 arg2 (some ref) env).1[j]? = env[j]? := by
  cases arg2 with
  | undef =>
    cases arg1 with
    | undef => exact ⟨rfl, fun j hj => rfl⟩
    | str sel =>
      have hw : (run1 bad (.str sel) .undef (some ref) env).1 =
          (addRule1 bad sel .undef (.real ref) env).1 := wrap_fst _ _
      have hf := addRule1_frame bad sel .undef (.real ref) env
      refine ⟨?_, fun j hj => ?_⟩
      · rw [hw]; exact hf.1
      · rw [hw]; exact hf.2 j hj
    | map es =>
      have hw : (run1 bad (.map es) .undef (some ref) env).1 =
          (loop1 bad (.real ref) es env none).1 := wrap_fst _ _
      have hf := loop1_frame bad (.real ref) es env none
      refine ⟨?_, fun j hj => ?_⟩
      · rw [hw]; exact hf.1
      · rw [hw]; exact hf.2 j hj
  | str s =>
    cases arg1 with
    | undef => exact ⟨rfl, fun j hj => rfl⟩
    | str sel =>
      have hw : (run1 bad (.str sel) (.str s) (some ref) env).1 =
          (addRule1 bad sel (.str s) (.real ref) env).1 := wrap_fst _ _
      have hf := addRule1_frame bad sel (.str s) (.real ref) env
      refine ⟨?_, fun j hj => ?_⟩
      · rw [hw]; exact hf.1
      · rw [hw]; exact hf.2 j hj
    | map es =>
      have hw : (run1 bad (.map es) (.str s) (some ref) env).1 =
          (loop1 bad (.real ref) es env none).1 := wrap_fst _ _
      have hf := loop1_frame bad (.real ref) es env none
      refine ⟨?_, fun j hj => ?_⟩
      · rw [hw]; exact hf.1
      · rw [hw]; exact hf.2 j hj
  | map ms =>
    cases arg1 with
    | undef => exact ⟨rfl, fun j hj => rfl⟩
    | str sel =>
      have hw : (run1 bad (.str sel) (.map ms) (some ref) env).1 =
          (addRule1 bad sel (.map ms) (.real ref) env).1 := wrap_fst _ _
      have hf := addRule1_frame bad sel (.map ms) (.real ref) env
      refine ⟨?_, fun j hj => ?_⟩
      · rw [hw]; exact hf.1
      · rw [hw]; exact hf.2 j hj
    | map es =>
      have hw : (run1 bad (.map es) (.map ms) (some ref) env).1 =
          (loop1 bad (.real ref) es env none).1 := wrap_fst _ _
      have hf := loop1_frame bad (.real ref) es env none
      refine ⟨?_, fun j hj => ?_⟩
      · rw [hw]; exact hf.1
      · rw [hw]; exact hf.2 j hj
  | sheet r2 =>
    cases arg1 with
    | undef => exact ⟨rfl, fun j hj => rfl⟩
    | str sel =>
      have hw : (run1 bad (.str sel) (.sheet r2) (some ref) env).1 =
          (addRule1 bad sel .undef (.real ref) env).1 := wrap_fst _ _
      have hf := addRule1_frame bad sel .undef (.real ref) env
      refine ⟨?_, fun j hj => ?_⟩
      · rw [hw]; exact hf.1
      · rw [hw]; exact hf.2 j hj
    | map es =>
      have hw : (run1 bad (.map es) (.sheet r2) (some ref) env).1 =
          (loop1 bad (.real ref) es env none).1 := wrap_fst _ _
      have hf := loop1_frame bad (.real ref) es env none
      refine ⟨?_, fun j hj => ?_⟩
      · rw [hw]; exact hf.1
      · rw [hw]; exact hf.2 j hj
  | quasi r2 =>
    cases arg1 with
    | undef => exact ⟨rfl, fun j hj => rfl⟩
    | str sel =>
      have hw : (run1 bad (.str sel) (.quasi r2) (some ref) env).1 =
          (addRule1 bad sel (.map [("cssRules", "0")]) (.real ref) env).1 := wrap_fst _ _
      have hf := addRule1_frame bad sel (.map [("cssRules", "0")]) (.real ref) env
      refine ⟨?_, fun j hj => ?_⟩
      · rw [hw]; exact hf.1
      · rw [hw]; exact hf.2 j hj
    | map es =>
      have hw : (run1 bad (.map es) (.quasi r2) (some ref) env).1 =
          (loop1 bad (.real ref) es env none).1 := wrap_fst _ _
      have hf := loop1_frame bad (.real ref) es env none
      refine ⟨?_, fun j hj => ?_⟩
      · rw [hw]; exact hf.1
      · rw [hw]; exact hf.2 j hj

/-- `addRule` on a non-empty selector whose built text the platform rejects:
the target is untouched and the SyntaxError surfaces as-is. -/
theorem addRule1_bad (bad : String → Bool) (sel : String) (sty : Styles)
    (ref : Nat) (env : Env) (old : Sheet) (hsel : sel ≠ "")
    (href : env[ref]? = some old) (hbad : bad (buildRule sel sty) = true) :
    addRule1 bad sel sty (.real ref) env =
      (env, .error (.parseErr (buildRule sel sty))) := by
  unfold addRule1
  rw [if_neg hsel]
  have hins : sheetInsert bad (.real ref) (buildRule sel sty) env =
      (env, .error (.parseErr (buildRule sel sty))) := by
    show realInsert bad env ref _ ((env[ref]?.getD []).length) = _
    rw [href]
    unfold realInsert
    rw [href]
    simp [hbad]
  rw [hins]

/-- After argument normalisation, the bodies of the two revisions agree on
any styles payload, target and environment. -/
theorem run_body_eq (bad : String → Bool) (arg1 : Arg1) (sty : Styles)
    (t : SheetVal) (env1 : Env) :
    (match arg1 with
     | .undef => (env1, (.error .typeErr : Except JsErr (Option (SheetVal × Nat))))
     | .str sel =>
       (match addRule1 bad sel sty t env1 with
        | (env2, Except.error e) => (env2, Except.error e)
        | (env2, Except.ok r) => (env2, Except.ok (r.map (fun i => (t, i)))))
     | .map es =>
       (match loop1 bad t es env1 none with
        | (env2, Except.error e) => (env2, Except.error e)
        | (env2, Except.ok r) => (env2, Except.ok (r.map (fun i => (t, i)))))) =
    (match arg1 with
     | .undef => (env1, (.error .typeErr : Except JsErr (Option (SheetVal × Nat))))
     | .str sel => addRule2 bad sel sty t env1
     | .map es =>
       (match loop2 bad t es env1 none with
        | (env2, Except.error e) => (env2, Except.error e)
        | (env2, Except.ok r) => (env2, Except.ok r))) := by
  cases arg1 with
  | undef => rfl
  | str sel => exact ((addRule2_eq bad sel sty t env1).symm)
  | map es =>
    have h2 : loop2 bad t es env1 none =
        match loop1 bad t es env1 none with
        | (e, Except.error err) => (e, Except.error err)
        | (e, Except.ok r) => (e, Except.ok (r.map (fun i => (t, i)))) :=
      loop2_eq bad t es env1 none
    dsimp only
    rw [h2]
    cases hl : loop1 bad t es env1 none with
    | mk e r => cases r <;> rfl

/-- C3 (code-bug evidence): with one stylesheet already in the document and
no explicit target, the code does not append to the existing (last)
stylesheet — it unconditionally creates and attaches a second, fresh
stylesheet and inserts there, leaving the existing stylesheet untouched.
This contradicts the function's own doc comment ("the last stylesheet in the
document is used (and created if none exist)") and the claim. -/
theorem C3_code_always_creates :
    run1 (fun _ => false) (.str ".b") (.str "color:red;") none [["p{margin:0;}"]] =
      ([["p{margin:0;}"], [".b{color:red;}"]], .ok (some (.real 1, 0))) := by
  decide

/-- C4 counterexample: with the selector argument absent entirely, the call
does not return quietly — `Object.entries(undefined)` raises a TypeError
(here with an explicit target supplied, so no stylesheet is touched either
way), contradicting the claim's "raises no exception". -/
theorem C4_counterexample :
    run1 (fun _ => false) .undef .undef (some 0) [[]] =
      ([[]], .error .typeErr) := by
  decide

/-- C4 (amended): for an empty-string selector or an empty rules map the
call returns no result, raises nothing, and inserts no rule into any
stylesheet; the environment is unchanged except that, when no explicit
target resolves, a fresh *empty* style container is still attached.  (An
absent selector argument instead raises a TypeError — see the
counterexample.) -/
theorem C4_empty_input_noop (bad : String → Bool) (arg1 : Arg1) (arg2 : Arg2)
    (arg3 : Option Nat) (env : Env) (h : arg1 = .str "" ∨ arg1 = .map []) :
    (run1 bad arg1 arg2 arg3 env).2 = .ok none ∧
    ((run1 bad arg1 arg2 arg3 env).1 = env ∨
     (run1 bad arg1 arg2 arg3 env).1 = env ++ [[]]) := by
  rcases h with h | h <;> subst h <;> cases arg2 <;> cases arg3 <;>
    first
      | exact ⟨rfl, Or.inl rfl⟩
      | exact ⟨rfl, Or.inr rfl⟩

/-- C4 witness: an empty-string selector at a concrete input. -/
theorem C4_witness :
    (run1 (fun _ => false) (.str "") .undef none [[]]).2 = .ok none ∧
    ((run1 (fun _ => false) (.str "") .undef none [[]]).1 = [[]] ∨
     (run1 (fun _ => false) (.str "") .undef none [[]]).1 = [[]] ++ [[]]) :=
  C4_empty_input_noop (fun _ => false) (.str "") .undef none [[]] (Or.inl rfl)

/-- C7: when an explicit target stylesheet is supplied, a call never creates
a stylesheet container (the stylesheet count is preserved, so the document
environment is never extended) and never changes any stylesheet other than
the supplied one — for every argument shape, on success and on error. -/
theorem C7_explicit_target_frame (bad : String → Bool) (arg1 : Arg1)
    (arg2 : Arg2) (ref : Nat) (env : Env) :
    (run1 bad arg1 arg2 (some ref) env).1.length = env.length ∧
    ∀ j, j ≠ ref → (run1 bad arg1 arg2 (some ref) env).1[j]? = env[j]? :=
  run1_frame_explicit bad arg1 arg2 ref env

/-- C7 witness: a concrete call with an explicit target leaves the other
stylesheet intact and creates none. -/
theorem C7_witness :
    (run1 (fun _ => false) (.str ".a") (.str "color:red;") (some 0)
      [[], ["x"]]).1.length = ([[], ["x"]] : Env).length ∧
    (run1 (fun _ => false) (.str ".a") (.str "color:red;") (some 0)
      [[], ["x"]]).1[1]? = ([[], ["x"]] : Env)[1]? :=
  ⟨(C7_explicit_target_frame (fun _ => false) (.str ".a") (.str "color:red;") 0
      [[], ["x"]]).1,
   (C7_explicit_target_frame (fun _ => false) (.str ".a") (.str "color:red;") 0
      [[], ["x"]]).2 1 (by decide)⟩

/-- C8: when the platform rejects the rule text built for some entry of a
selector-map call, the SyntaxError raised by `insertRule` propagates to the
caller unmodified (uncaught, unwrapped), the rules inserted for the earlier
entries of the same call remain inserted, and no later entry is processed. -/
theorem C8_error_propagates (bad : String → Bool)
    (es1 es2 : List (String × Styles)) (sel : String) (sty : Styles)
    (ref : Nat) (env : Env) (old : Sheet)
    (href : env[ref]? = some old)
    (hok : ∀ p ∈ es1, p.1 ≠ "" ∧ bad (buildRule p.1 p.2) = false)
    (hsel : sel ≠ "") (hbad : bad (buildRule sel sty) = true) :
    run1 bad (.map (es1 ++ (sel, sty) :: es2)) .undef (some ref) env =
      (env.set ref (old ++ es1.map (fun p => buildRule p.1 p.2)),
       .error (.parseErr (buildRule sel sty))) := by
  have hlt : ref < env.length := (List.getElem?_eq_some.mp href).1
  show (match loop1 bad (.real ref) (es1 ++ (sel, sty) :: es2) env none with
    | (env2, Except.error e) => (env2, Except.error e)
    | (env2, Except.ok r) => (env2, Except.ok (r.map (fun i => (SheetVal.real ref, i))))) = _
  rw [loop1_append, loop1_ok bad ref es1 env old none href hok]
  dsimp only
  rw [loop1]
  rw [addRule1_bad bad sel sty ref _ (old ++ es1.map (fun p => buildRule p.1 p.2))
    hsel (by rw [List.getElem?_set_self (by simpa using hlt)]) hbad]

/-- C8 witness: the second entry's text is rejected; the first entry's rule
stays, the third entry is never reached, and the SyntaxError carries the
offending text. -/
theorem C8_witness :
    run1 (fun s => s == ".b{oops}")
      (.map [(".a", .str "color:blue;"), (".b", .str "oops"), (".c", .str "x")])
      .undef (some 0) [[]] =
      ([[".a{color:blue;}"]], .error (.parseErr ".b{oops}")) := by
  have h := C8_error_propagates (fun s => s == ".b{oops}")
    [(".a", .str "color:blue;")] [(".c", .str "x")] ".b" (.str "oops") 0 [[]] []
    (by decide) (by decide) (by decide) (by decide)
  exact h.trans (by decide)

/-- C9: when the second argument is a genuine stylesheet and an explicit
third-argument stylesheet is also supplied, the third argument wins: the
call behaves exactly as if the second argument were absent (in particular
the style payload is treated as absent), and the sheet-like second argument
is not inserted into. -/
theorem C9_third_arg_precedence (bad : String → Bool) (arg1 : Arg1)
    (r2 r3 : Nat) (env : Env) :
    run1 bad arg1 (.sheet r2) (some r3) env =
      run1 bad arg1 .undef (some r3) env ∧
    (r2 ≠ r3 → (run1 bad arg1 (.sheet r2) (some r3) env).1[r2]? = env[r2]?) :=
  ⟨rfl, fun hne => (run1_frame_explicit bad arg1 (.sheet r2) r3 env).2 r2 hne⟩

/-- C9 witness: with sheet 1 passed second and sheet 0 passed third, the
call targets sheet 0 and sheet 1 keeps its contents. -/
theorem C9_witness :
    (run1 (fun _ => false) (.str ".a") (.sheet 1) (some 0) [["x"], ["y"]] =
      run1 (fun _ => false) (.str ".a") .undef (some 0) [["x"], ["y"]]) ∧
    (run1 (fun _ => false) (.str ".a") (.sheet 1) (some 0) [["x"], ["y"]]).1[1]? =
      some ["y"] :=
  ⟨(C9_third_arg_precedence (fun _ => false) (.str ".a") 1 0 [["x"], ["y"]]).1,
   ((C9_third_arg_precedence (fun _ => false) (.str ".a") 1 0 [["x"], ["y"]]).2
     (by decide)).trans (by decide)⟩

/-- C10 counterexample: on a second argument with an `insertRule` function
but a defined-yet-falsy `cssRules` (the quasi-sheet object), the revisions
disagree: revision 1's truthiness test treats it as a style object and
inserts `.a{cssRules:0;}`, while revision 2's definedness test treats it as
a sheet argument and inserts `.a` with no payload. -/
theorem C10_counterexample :
    run1 (fun _ => false) (.str ".a") (.quasi 0) (some 1) [[], []] ≠
      run2 (fun _ => false) (.str ".a") (.quasi 0) (some 1) [[], []] := by
  decide

/-- C10 (amended): the two revisions are observably equivalent — same final
stylesheet state, same return value, same raised error — for every input
whose second argument is not a quasi-sheet object (an object with an
`insertRule` function and a defined but falsy `cssRules`, on which the two
revisions' duck-typing tests disagree). -/
theorem C10_revisions_equivalent (bad : String → Bool) (arg1 : Arg1)
    (arg2 : Arg2) (arg3 : Option Nat) (env : Env)
    (h : ∀ r, arg2 ≠ .quasi r) :
    run1 bad arg1 arg2 arg3 env = run2 bad arg1 arg2 arg3 env := by
  cases arg2 with
  | quasi r => exact absurd rfl (h r)
  | undef =>
    cases arg3 with
    | none => exact run_body_eq bad arg1 .undef (.real env.length) (env ++ [[]])
    | some r3 => exact run_body_eq bad arg1 .undef (.real r3) env
  | str s =>
    cases arg3 with
    | none => exact run_body_eq bad arg1 (.str s) (.real env.length) (env ++ [[]])
    | some r3 => exact run_body_eq bad arg1 (.str s) (.real r3) env
  | map ms =>
    cases arg3 with
    | none => exact run_body_eq bad arg1 (.map ms) (.real env.length) (env ++ [[]])
    | some r3 => exact run_body_eq bad arg1 (.map ms) (.real r3) env
  | sheet r2 =>
    cases arg3 with
    | none => exact run_body_eq bad arg1 .undef (.real r2) env
    | some r3 => exact run_body_eq bad arg1 .undef (.real r3) env

/-- C10 witness: the revisions agree at a concrete non-quasi input. -/
theorem C10_witness :
    run1 (fun _ => false) (.str ".a") (.str "color:red;") (some 0) [[]] =
      run2 (fun _ => false) (.str ".a") (.str "color:red;") (some 0) [[]] :=
  C10_revisions_equivalent (fun _ => false) (.str ".a") (.str "color:red;")
    (some 0) [[]] (fun _ hh => Arg2.noConfusion hh)
